import Mathlib

/-
Verification development for the vigilsforgood server (src/unnamed/part_000).

The server is a single Express application.  We shallowly embed its data
model and the request handlers that the specification describes:

  * JS objects are modelled as functions from property names to optional
    values (JsVal).  Property assignment is function update, mirroring the
    semantics of object-spread followed by explicit properties.
  * The vigil store (vigilsData.vigils) is a JS object keyed by uuid; we
    model it as an insertion-ordered association list with last-write-wins
    assignment, which matches enumeration order of non-index string keys.
  * Network effects (BDO pushes, zipcode resolution, signature checks) are
    parameters of the embedded handlers: each handler takes the outcome
    functions as arguments and is otherwise pure.
  * JS numbers appearing in distance computations are idealised as
    rationals for the search pipeline (every IEEE double value used there
    is a rational, so quantifying over rational-valued distance functions
    subsumes the float behaviours), and as reals for the Haversine
    formula itself.
-/

namespace VigilsForGood

/-! ## JS values and objects -/

/-- A JavaScript value as far as this server manipulates them:
strings, integer timestamps, rational numbers (idealised doubles),
booleans and null/undefined. -/
inductive JsVal where
  | str (s : String)
  | num (n : Int)
  | rat (q : ℚ)
  | bool (b : Bool)
  | null
deriving DecidableEq, Repr

/-- A JavaScript object, modelled by its property lookup function.
A property that is absent (undefined) is `none`. -/
def JsObj : Type := String → Option JsVal

/-- Property assignment: `obj.k = v` (and equally the override performed by
an object literal that lists `k` after a spread). -/
def objSet (o : JsObj) (k : String) (v : JsVal) : JsObj :=
  fun k2 => if k2 = k then some v else o k2

/-- The empty object literal. -/
def emptyObj : JsObj := fun _ => none

/-! ## The vigil store

`vigilsData.vigils` is a plain JS object keyed by uuid strings.  Keys such
as `vigil-<timestamp>-<random>` are not array indices, so enumeration
(`Object.values`, `Object.keys`) follows insertion order; we model the
object as an insertion-ordered association list where assigning to an
existing key overwrites in place and assigning to a fresh key appends. -/

/-- Assignment `m[k] = v` on a JS object viewed as an ordered association
list: overwrite in place when the key exists, append otherwise. -/
def objInsert {V : Type} (m : List (String × V)) (k : String) (v : V) :
    List (String × V) :=
  if m.any (fun p => p.1 = k) then
    m.map (fun p => if p.1 = k then (k, v) else p)
  else
    m ++ [(k, v)]

/-- The `delete m[k]` operation. -/
def objDelete {V : Type} (m : List (String × V)) (k : String) :
    List (String × V) :=
  m.filter (fun p => p.1 ≠ k)

/-- Property lookup `m[k]` on the store. -/
def objLookup {V : Type} (m : List (String × V)) (k : String) : Option V :=
  (m.find? (fun p => p.1 = k)).map (fun p => p.2)

/-- `Object.values m`. -/
def objValues {V : Type} (m : List (String × V)) : List V :=
  m.map (fun p => p.2)

/-! ## BDO configuration and replication push

`syncVigilsToBDO` iterates over the three configured BDO servers, calling
`updateBDO` on each inside a try/catch, and collects per-server outcome
records.  The network outcome of each push is abstracted as a Boolean
function of the server URL; the function is a parameter of the embedding
(the code observes of each push only whether it threw). -/

def BDO_SERVERS : List String :=
  ["https://dev.bdo.allyabase.com",
   "https://ent.bdo.allyabase.com",
   "https://ind.bdo.allyabase.com"]

/-- One element of the `results` array built by `syncVigilsToBDO`:
`\x7b server, success \x7d` (the error message of a failed push is not
inspected by any caller and is omitted). -/
structure SyncOutcome where
  server : String
  success : Bool
deriving DecidableEq, Repr

/-- `syncVigilsToBDO`: push the snapshot to every configured server,
recording per-server success. -/
def syncVigilsToBDO (pushOk : String → Bool) : List SyncOutcome :=
  BDO_SERVERS.map (fun s => ⟨s, pushOk s⟩)

/-- Response of `POST /api/bdo/create`. -/
inductive CreateResp where
  /-- 500 `Failed to sync to any BDO server` with the per-server details. -/
  | syncFailed (details : List SyncOutcome)
  /-- 200 `\x7b uuid, vigil, syncedTo, totalVigils \x7d` (the `vigil`
  member repeats the stored record and is not part of this model). -/
  | synced (uuid : String) (syncedTo : List String) (totalVigils : Nat)
deriving DecidableEq, Repr

/-- The tail of the create handler: filter the sync results and answer
500 exactly when no server succeeded, else 200 with the succeeding
server URLs in `syncedTo`. -/
def finishCreate (uuid : String) (total : Nat)
    (syncResults : List SyncOutcome) : CreateResp :=
  let successfulSyncs := syncResults.filter (fun r => r.success)
  if successfulSyncs.length = 0 then
    .syncFailed syncResults
  else
    .synced uuid (successfulSyncs.map (fun r => r.server)) total

/-- Response of `DELETE /admin/delete/:uuid` after the auth gate and the
existence check have passed. -/
inductive DeleteResp where
  /-- 500 `Failed to sync deletion to any BDO server`. -/
  | syncFailed (details : List SyncOutcome)
  /-- 200 `\x7b success, uuid, syncedTo, remainingVigils \x7d`. -/
  | deleted (uuid : String) (syncedTo : List String) (remainingVigils : Nat)
deriving DecidableEq, Repr

/-- The tail of the admin delete handler. -/
def finishDelete (uuid : String) (remaining : Nat)
    (syncResults : List SyncOutcome) : DeleteResp :=
  let successfulSyncs := syncResults.filter (fun r => r.success)
  if successfulSyncs.length = 0 then
    .syncFailed syncResults
  else
    .deleted uuid (successfulSyncs.map (fun r => r.server)) remaining

/-! ## The vigil record built by the create handler

`POST /api/bdo/create` builds
`\x7b ...req.body.data, uuid: vigilUUID, createdAt: Date.now() \x7d`:
the spread of the client data followed by the two server-assigned
properties, which therefore override any client-supplied values. -/

/-- The record stored by the create handler. -/
def mkVigilData (data : JsObj) (vigilUUID : String) (now : Int) : JsObj :=
  objSet (objSet data "uuid" (.str vigilUUID)) "createdAt" (.num now)

/-- `vigilsData.metadata`. -/
structure Metadata where
  lastUpdated : Option Int
  totalVigils : Nat

/-- `vigilsData`: the store object replicated to the BDO servers. -/
structure VigilsState where
  vigils : List (String × JsObj)
  metadata : Metadata

/-- `POST /api/bdo/create`: insert the freshly stamped record under the
generated uuid, recompute the metadata, push the snapshot to every BDO
server, then report per `finishCreate`.  The generated uuid and the
current time are parameters (the code draws them from `Date.now()` and
`Math.random()`). -/
def createHandler (st : VigilsState) (data : JsObj) (vigilUUID : String)
    (now : Int) (pushOk : String → Bool) : VigilsState × CreateResp :=
  let vigilData := mkVigilData data vigilUUID now
  let vigils2 := objInsert st.vigils vigilUUID vigilData
  let st2 : VigilsState :=
    ⟨vigils2, ⟨some now, vigils2.length⟩⟩
  (st2, finishCreate vigilUUID vigils2.length (syncVigilsToBDO pushOk))

/-! ## JavaScript parseInt and NaN comparison semantics

Both admin routes run
`const requestTime = parseInt(timestamp);`
`const timeDiff = Math.abs(now - requestTime);`
`if (timeDiff > twoMinutes) ...`.
`parseInt` returns NaN when no digits can be read, `Math.abs` and
subtraction propagate NaN, and every `>` comparison involving NaN is
false.  We model a possibly-NaN number as `Option Int` with `none` for
NaN. -/

/-- Characters treated as leading whitespace by `parseInt`. -/
def isJsSpace (c : Char) : Bool :=
  c = ' ' || c = '\t' || c = '\n' || c = '\r' ||
  c = Char.ofNat 11 || c = Char.ofNat 12

/-- Value of a list of decimal digit characters. -/
def digitsVal (ds : List Char) : Nat :=
  ds.foldl (fun acc c => acc * 10 + (c.toNat - 48)) 0

/-- Value of a list of hexadecimal digit characters. -/
def hexVal (ds : List Char) : Nat :=
  ds.foldl (fun acc c =>
    acc * 16 +
      (if c.isDigit then c.toNat - 48
       else if 'a' ≤ c ∧ c ≤ 'f' then c.toNat - 87
       else c.toNat - 55)) 0

/-- Magnitude part of `parseInt` after sign handling: an optional `0x` /
`0X` prefix selects base 16, otherwise the longest decimal digit prefix
is read; no digits at all yields NaN (`none`). -/
def parseIntMag (cs : List Char) : Option Nat :=
  match cs with
  | '0' :: x :: rest =>
    if x = 'x' ∨ x = 'X' then
      let ds := rest.takeWhile (fun c =>
        c.isDigit || ('a' ≤ c && c ≤ 'f') || ('A' ≤ c && c ≤ 'F'))
      if ds.isEmpty then none else some (hexVal ds)
    else
      some (digitsVal (('0' :: x :: rest).takeWhile (fun c => c.isDigit)))
  | _ =>
    let ds := cs.takeWhile (fun c => c.isDigit)
    if ds.isEmpty then none else some (digitsVal ds)

/-- `parseInt(s)` with no radix argument; `none` is NaN. -/
def parseIntJS (s : String) : Option Int :=
  let cs := s.data.dropWhile (fun c => isJsSpace c)
  match cs with
  | '-' :: rest => (parseIntMag rest).map (fun n => -(n : Int))
  | '+' :: rest => (parseIntMag rest).map (fun n => (n : Int))
  | _ => (parseIntMag cs).map (fun n => (n : Int))

/-- `Math.abs(now - requestTime)` with NaN propagation. -/
def jsAbsSub (now : Int) (t : Option Int) : Option Int :=
  t.map (fun v => ((now - v).natAbs : Int))

/-- A JS `>` comparison whose left side may be NaN: NaN compares false. -/
def jsGt (a : Option Int) (b : Int) : Bool :=
  match a with
  | some v => b < v
  | none => false

/-! ## The admin authentication gate and the admin routes

`GET /admin` and `DELETE /admin/delete/:uuid` start with the identical
inline sequence: missing-parameter check, timestamp-expiry check,
signature verification.  Signature verification is abstracted as a
Boolean function of the signature and of the message (the raw timestamp
string) against the fixed admin public key. -/

/-- Outcome of the shared gate sequence: `none` means all checks passed
and the handler body runs. -/
inductive GateFail where
  /-- 400 `Missing timestamp or signature`. -/
  | missingParams
  /-- 401 `Timestamp expired`. -/
  | expired
  /-- 403 `Invalid signature`. -/
  | invalidSig
deriving DecidableEq, Repr

/-- The inline check sequence shared verbatim by both admin routes.  An
absent query parameter arrives as the empty (falsy) value. -/
def adminGate (timestamp signature : String) (now : Int)
    (sigValid : String → String → Bool) : Option GateFail :=
  if timestamp = "" ∨ signature = "" then some .missingParams
  else
    let requestTime := parseIntJS timestamp
    let timeDiff := jsAbsSub now requestTime
    if jsGt timeDiff 120000 then some .expired
    else if ¬ sigValid signature timestamp then some .invalidSig
    else none

/-- Response of `GET /admin`. -/
inductive AdminPageResp where
  | gateFail (g : GateFail)
  /-- 200: the moderation HTML listing `Object.values(vigilsData.vigils)`. -/
  | page (vigils : List JsObj)

/-- `GET /admin`: run the gate, then render the moderation page. -/
def adminPageHandler (st : VigilsState) (timestamp signature : String)
    (now : Int) (sigValid : String → String → Bool) : AdminPageResp :=
  match adminGate timestamp signature now sigValid with
  | some g => .gateFail g
  | none => .page (objValues st.vigils)

/-- Response of `DELETE /admin/delete/:uuid`. -/
inductive AdminDeleteResp where
  | gateFail (g : GateFail)
  /-- 404 `Vigil not found`. -/
  | notFound
  | finish (r : DeleteResp)

/-- `DELETE /admin/delete/:uuid`: gate, existence check, deletion,
metadata recomputation, replication push, then report per
`finishDelete`. -/
def adminDeleteHandler (st : VigilsState) (uuid timestamp signature : String)
    (now : Int) (sigValid : String → String → Bool)
    (pushOk : String → Bool) : VigilsState × AdminDeleteResp :=
  match adminGate timestamp signature now sigValid with
  | some g => (st, .gateFail g)
  | none =>
    match objLookup st.vigils uuid with
    | none => (st, .notFound)
    | some _ =>
      let vigils2 := objDelete st.vigils uuid
      let st2 : VigilsState := ⟨vigils2, ⟨some now, vigils2.length⟩⟩
      (st2, .finish (finishDelete uuid vigils2.length (syncVigilsToBDO pushOk)))

/-! ## Startup bootstrap (`initializeBDO`)

On startup `getKeys` loads `.bdo-keys.json` when it exists.  If the
loaded object is truthy and carries a truthy `uuid`, that uuid is adopted
as `bdoUserUUID` and `createUser` is never invoked; otherwise the handler
loops over all three servers calling `createUser` on each, and the first
success fixes `bdoUserUUID`.  The remote `createUser` outcome per server
is abstracted as `Option String` (the assigned uuid, or `none` when the
call throws). -/

/-- Contents of the credential file: the keypair plus the optionally
stored remote uuid (absent when the file was written before any
`createUser` succeeded). -/
structure StoredKeys where
  pubKey : String
  privKey : String
  uuid : Option String
deriving DecidableEq, Repr

/-- One element of the `results` array of `initializeBDO`. -/
structure InitEntry where
  server : String
  uuid : Option String
  success : Bool
  existing : Bool
deriving DecidableEq, Repr

/-- Result of bootstrap: the adopted `bdoUserUUID`, the servers on which
`createUser` was invoked (in call order), and the `results` array. -/
structure InitOutcome where
  bdoUserUUID : Option String
  createCalls : List String
  results : List InitEntry
deriving DecidableEq, Repr

/-- The creation loop of `initializeBDO`: call `createUser` on every
server; the first success sets `bdoUserUUID`; failures are recorded and
do not abort the loop. -/
def createAllUsers (createOutcome : String → Option String) : InitOutcome :=
  BDO_SERVERS.foldl
    (fun st s =>
      match createOutcome s with
      | some u =>
        { bdoUserUUID := st.bdoUserUUID.orElse (fun _ => some u)
          createCalls := st.createCalls ++ [s]
          results := st.results ++ [⟨s, some u, true, false⟩] }
      | none =>
        { bdoUserUUID := st.bdoUserUUID
          createCalls := st.createCalls ++ [s]
          results := st.results ++ [⟨s, none, false, false⟩] })
    ⟨none, [], []⟩

/-- `initializeBDO`.  The condition guarding the reuse branch is the JS
truthiness test `keys && keys.uuid`: the file must exist and its `uuid`
member must be present and a non-empty string. -/
def initializeBDO (file : Option StoredKeys)
    (createOutcome : String → Option String) : InitOutcome :=
  match file with
  | some ks =>
    match ks.uuid with
    | some u =>
      if u = "" then createAllUsers createOutcome
      else
        ⟨some u, [], BDO_SERVERS.map (fun s => ⟨s, some u, true, true⟩)⟩
    | none => createAllUsers createOutcome
  | none => createAllUsers createOutcome

/-- The `(uuid, hash)` argument pairs of the `updateBDO` calls issued by
`syncVigilsToBDO`: every replication push targets the current
`bdoUserUUID` under the fixed vigils hash. -/
def syncCallTargets (bdoUserUUID : Option String) :
    List (String × Option String) :=
  BDO_SERVERS.map (fun s => (s, bdoUserUUID))

/-! ## Calendar dates (`GET /api/vigils-count`)

The handler computes
`const todayStr = new Date().toISOString().split('T')[0];`
and counts vigils whose `date` property strictly equals `todayStr`.
`toISOString` always formats the UTC calendar date of the instant.  We
embed the proleptic-Gregorian conversion from epoch day numbers to
civil dates (floor division throughout). -/

/-- Civil date `(year, month, day)` of a day number counted from
1970-01-01. -/
def civilFromDays (z0 : Int) : Int × Int × Int :=
  let z := z0 + 719468
  let era : Int := z.fdiv 146097
  let doe : Int := z - era * 146097
  let yoe : Int := (doe - doe / 1460 + doe / 36524 - doe / 146096) / 365
  let y : Int := yoe + era * 400
  let doy : Int := doe - (365 * yoe + yoe / 4 - yoe / 100)
  let mp : Int := (5 * doy + 2) / 153
  let d : Int := doy - (153 * mp + 2) / 5 + 1
  let m : Int := mp + (if mp < 10 then 3 else -9)
  (y + (if m ≤ 2 then 1 else 0), m, d)

/-- Zero-pad a month or day component to two digits. -/
def pad2 (n : Int) : String :=
  if n < 10 then "0" ++ toString n else toString n

/-- `YYYY-MM-DD` string of an epoch day number (years of four digits,
which covers every instant this service handles). -/
def dateStringOfDay (day : Int) : String :=
  let c := civilFromDays day
  toString c.1 ++ "-" ++ pad2 c.2.1 ++ "-" ++ pad2 c.2.2

/-- The date part of `new Date(ms).toISOString()`: the UTC calendar date
of the instant. -/
def toISODateString (ms : Int) : String :=
  dateStringOfDay (ms.fdiv 86400000)

/-- Modelled from the spec: the current local calendar date, for a
process whose timezone offset (in the JS `getTimezoneOffset` convention,
minutes to add to local time to reach UTC) is `tzOffsetMin`.  The spec
phrase countToday is defined against; the server source itself never
computes a local date. -/
def localDateString (ms tzOffsetMin : Int) : String :=
  toISODateString (ms - tzOffsetMin * 60000)

/-- The `today` member of `GET /api/vigils-count`: vigils whose `date`
property equals the ISO (UTC) date string of the current instant. -/
def vigilsCountToday (st : VigilsState) (ms : Int) : Nat :=
  ((objValues st.vigils).filter
    (fun v => v "date" = some (.str (toISODateString ms)))).length

/-- Modelled from the spec: the count the claim describes, filtering by
the current local calendar date. -/
def localCountToday (st : VigilsState) (ms tzOffsetMin : Int) : Nat :=
  ((objValues st.vigils).filter
    (fun v => v "date" = some (.str (localDateString ms tzOffsetMin)))).length

/-- A store holding one vigil dated 2024-12-31, and an instant
(2025-01-01T01:00Z) at which a process in a UTC-8 zone still has local
calendar date 2024-12-31.  Input of the C4 counterexample. -/
def cxDateStore : VigilsState :=
  ⟨[("v1", objSet emptyObj "date" (.str "2024-12-31"))], ⟨none, 1⟩⟩

/-! ## Zipcode format validation

The regular expression `\d\x7b5\x7d` anchored at both ends, used by
`GET /api/zipcode-info/:zipcode` (and by the browser client before it
posts a vigil).  The create endpoint itself never runs this test. -/

/-- `/api` zipcode pattern: exactly five decimal digits. -/
def isValidZipcode (s : String) : Bool :=
  s.length = 5 && s.data.all (fun c => c.isDigit)

/-! ## The radius search (`GET /api/vigils/:zipcode`)

The handler resolves the search zipcode, walks `Object.values` of the
store in enumeration order, resolves each vigil zipcode (skipping
records whose resolution fails), computes the Haversine distance,
retains records within 10 miles pairing each with
`parseFloat(distance.toFixed(1))`, and finally sorts with the stable
`Array.prototype.sort` under the comparator `a.distance - b.distance`.

The pipeline is embedded generically in the record type `V` with a
per-record coordinate resolution function (resolution depends only on
the zipcode property of the record), and a rational-valued distance
function standing for the Haversine doubles: the structure of the
pipeline does not depend on the numerics, and every reachable float
value is a rational. -/

/-- A resolved coordinate pair. -/
structure Coordinate where
  lat : ℚ
  lon : ℚ
deriving DecidableEq, Repr

/-- The fixed search radius. -/
def RADIUS_MILES : ℚ := 10

/-- `parseFloat(d.toFixed(1))` for the nonnegative distances this code
produces: round half away from zero to one decimal place. -/
def round1 (d : ℚ) : ℚ := (round (d * 10) : ℚ) / 10

/-- The filter loop: walk the records in enumeration order, drop records
whose zipcode does not resolve, keep records within the radius paired
with the rounded distance. -/
def vigilsWithDistance {V : Type} (resolveV : V → Option Coordinate)
    (dist : Coordinate → Coordinate → ℚ) (searchCoords : Coordinate)
    (vigils : List V) : List (V × ℚ) :=
  vigils.filterMap (fun v =>
    match resolveV v with
    | none => none
    | some c =>
      let d := dist searchCoords c
      if d ≤ RADIUS_MILES then some (v, round1 d) else none)

/-- The full search: filter, then the stable sort under the comparator
on the `distance` property (which holds the rounded value).
`Array.prototype.sort` is required to be stable; a stable sort is
determined extensionally by its comparator (here embedded as an
insertion sort, with the stable-sort characterization proved in
`radiusSearch_sorted_by_rounded`). -/
def radiusSearch {V : Type} (resolveV : V → Option Coordinate)
    (dist : Coordinate → Coordinate → ℚ) (searchCoords : Coordinate)
    (vigils : List V) : List (V × ℚ) :=
  (vigilsWithDistance resolveV dist searchCoords vigils).insertionSort
    (fun a b => a.2 ≤ b.2)

/-- The true (unrounded) distance of a record from the search point,
defaulting to 0 for records whose zipcode does not resolve (every
record retained by the search resolves, so the default is never
consulted on results). -/
def trueDistOf {V : Type} (resolveV : V → Option Coordinate)
    (dist : Coordinate → Coordinate → ℚ) (searchCoords : Coordinate)
    (v : V) : ℚ :=
  ((resolveV v).map (dist searchCoords)).getD 0

/-- The ranking the claim asserts: the result list ascending in the true
distance from the search point. -/
def sortedByTrueDistance {V : Type} (resolveV : V → Option Coordinate)
    (dist : Coordinate → Coordinate → ℚ) (searchCoords : Coordinate)
    (out : List (V × ℚ)) : Prop :=
  out.Pairwise (fun a b =>
    trueDistOf resolveV dist searchCoords a.1 ≤
      trueDistOf resolveV dist searchCoords b.1)

/-! Concrete search inputs for the C1 counterexample: two records whose
zipcodes resolve to distinct coordinates at true distances 1.24 and
1.16 miles from the search point (both values are attained by the
Haversine formula, whose range on coordinates is an interval).  The
records are stored in that enumeration order. -/

/-- A stored record as the search touches it: its uuid and zipcode. -/
structure VigilRec where
  uuid : String
  zipcode : String
deriving DecidableEq, Repr

/-- Coordinate of the first counterexample zipcode. -/
def cxCoord1 : Coordinate := ⟨1, 0⟩

/-- Coordinate of the second counterexample zipcode. -/
def cxCoord2 : Coordinate := ⟨2, 0⟩

/-- Coordinate of the search zipcode of the counterexample. -/
def cxSearchCoord : Coordinate := ⟨0, 0⟩

/-- Zipcode resolution of the counterexample. -/
def cxResolve : VigilRec → Option Coordinate := fun v =>
  if v.zipcode = "11111" then some cxCoord1
  else if v.zipcode = "22222" then some cxCoord2
  else none

/-- Distances of the counterexample: 1.24 miles to the first
coordinate, 1.16 miles to the second. -/
def cxDist : Coordinate → Coordinate → ℚ := fun _ c =>
  if c = cxCoord1 then 31 / 25 else 29 / 25

/-- The stored records of the counterexample, enumerated farther-first. -/
def cxVigils : List VigilRec := [⟨"v1", "11111"⟩, ⟨"v2", "22222"⟩]

/-- The comparator used by the search sort is total. -/
instance searchLeTotal (V : Type) :
    IsTotal (V × ℚ) (fun a b => a.2 ≤ b.2) :=
  ⟨fun a b => le_total a.2 b.2⟩

/-- The comparator used by the search sort is transitive. -/
instance searchLeTrans (V : Type) :
    IsTrans (V × ℚ) (fun a b => a.2 ≤ b.2) :=
  ⟨fun _ _ _ hab hbc => le_trans hab hbc⟩

/-! ## The Haversine distance (`calculateDistance`)

The arithmetic of `calculateDistance` is embedded over the reals, the
standard idealisation of the IEEE doubles the code computes with (the
claim itself is phrased up to floating-point tolerance). -/

/-- `Math.atan2(y, x)` on the reals, ignoring signed zeros. -/
noncomputable def atan2 (y x : ℝ) : ℝ :=
  if 0 < x then Real.arctan (y / x)
  else if x < 0 ∧ 0 ≤ y then Real.arctan (y / x) + Real.pi
  else if x < 0 ∧ y < 0 then Real.arctan (y / x) - Real.pi
  else if 0 < y then Real.pi / 2
  else if y < 0 then -(Real.pi / 2)
  else 0

/-- `toRad(degrees)`. -/
noncomputable def toRad (degrees : ℝ) : ℝ :=
  degrees * (Real.pi / 180)

/-- `calculateDistance(lat1, lon1, lat2, lon2)`: the Haversine formula
with Earth radius 3959 miles. -/
noncomputable def calculateDistance (lat1 lon1 lat2 lon2 : ℝ) : ℝ :=
  let R : ℝ := 3959
  let dLat := toRad (lat2 - lat1)
  let dLon := toRad (lon2 - lon1)
  let a :=
    Real.sin (dLat / 2) * Real.sin (dLat / 2) +
    Real.cos (toRad lat1) * Real.cos (toRad lat2) *
    Real.sin (dLon / 2) * Real.sin (dLon / 2)
  let c := 2 * atan2 (Real.sqrt a) (Real.sqrt (1 - a))
  R * c

/-! ## Theorems -/

theorem find?_overwrite {V : Type} (m : List (String × V)) (k : String)
    (v : V) (h : m.any (fun p => p.1 = k) = true) :
    (m.map (fun p => if p.1 = k then (k, v) else p)).find?
      (fun p => p.1 = k) = some (k, v) := by
  induction m with
  | nil => simp at h
  | cons p t ih =>
    by_cases hp : p.1 = k
    · simp [List.find?, hp]
    · simp only [List.any_cons, decide_eq_true_eq, hp, false_or] at h
      simp only [List.map_cons, if_neg hp]
      rw [List.find?_cons_of_neg _ (by simpa using hp)]
      exact ih h

theorem find?_append_fresh {V : Type} (m : List (String × V)) (k : String)
    (v : V) (h : ∀ p ∈ m, p.1 ≠ k) :
    (m ++ [(k, v)]).find? (fun p => p.1 = k) = some (k, v) := by
  induction m with
  | nil => simp [List.find?]
  | cons p t ih =>
    rw [List.cons_append,
      List.find?_cons_of_neg _ (by simpa using h p (by simp))]
    exact ih (fun q hq => h q (by simp [hq]))

theorem objLookup_objInsert {V : Type} (m : List (String × V)) (k : String)
    (v : V) : objLookup (objInsert m k v) k = some v := by
  unfold objInsert objLookup
  by_cases h : m.any (fun p => p.1 = k)
  · rw [if_pos h, find?_overwrite m k v h]
    rfl
  · rw [if_neg h, find?_append_fresh m k v]
    · rfl
    · intro p hp hk
      exact h (List.any_eq_true.mpr ⟨p, hp, by simpa using hk⟩)

theorem objLookup_objDelete_same {V : Type} (m : List (String × V))
    (k : String) : objLookup (objDelete m k) k = none := by
  unfold objDelete objLookup
  induction m with
  | nil => simp [List.find?]
  | cons p t ih =>
    by_cases hp : p.1 = k
    · simp only [List.filter_cons, decide_eq_true_eq, hp, ne_eq,
        not_true_eq_false, if_false]
      exact ih
    · simp only [List.filter_cons, decide_eq_true_eq]
      rw [if_pos (by simpa using hp)]
      rw [List.find?_cons_of_neg _ (by simpa using hp)]
      exact ih

/-- Claim C7: for every pair of coordinates a and b, the distance
function is symmetric, and the distance from a coordinate to itself is
zero.  (Purity holds by construction: `calculateDistance` is embedded as
a function of its four arguments.  The symmetry the claim allows up to
floating-point tolerance holds exactly in the real-number idealisation
of the formula.) -/
theorem calculateDistance_symm_and_zero :
    (∀ lat1 lon1 lat2 lon2 : ℝ,
      calculateDistance lat1 lon1 lat2 lon2 =
        calculateDistance lat2 lon2 lat1 lon1)
    ∧ (∀ lat lon : ℝ, calculateDistance lat lon lat lon = 0) := by
  constructor
  · intro lat1 lon1 lat2 lon2
    unfold calculateDistance
    dsimp only
    have h1 : toRad (lat1 - lat2) / 2 = -(toRad (lat2 - lat1) / 2) := by
      unfold toRad; ring
    have h2 : toRad (lon1 - lon2) / 2 = -(toRad (lon2 - lon1) / 2) := by
      unfold toRad; ring
    rw [h1, h2, Real.sin_neg, Real.sin_neg]
    ring_nf
  · intro lat lon
    unfold calculateDistance
    dsimp only
    simp [sub_self, toRad, Real.sqrt_zero, Real.sqrt_one, atan2,
      Real.arctan_zero]

/-- Claim C10: the stored record carries the server-generated uuid under
`uuid` and the server timestamp under `createdAt`, overriding any
client-supplied values of those properties, every other client property
is kept, and the record is stored under exactly that uuid key. -/
theorem create_server_assigned_fields (st : VigilsState) (data : JsObj)
    (vigilUUID : String) (now : Int) (pushOk : String → Bool) :
    mkVigilData data vigilUUID now "uuid" = some (.str vigilUUID)
    ∧ mkVigilData data vigilUUID now "createdAt" = some (.num now)
    ∧ objLookup (createHandler st data vigilUUID now pushOk).1.vigils
        vigilUUID = some (mkVigilData data vigilUUID now)
    ∧ ∀ k, k ≠ "uuid" → k ≠ "createdAt" →
        mkVigilData data vigilUUID now k = data k := by
  refine ⟨rfl, rfl, ?_, ?_⟩
  · exact objLookup_objInsert st.vigils vigilUUID _
  · intro k h1 h2
    simp [mkVigilData, objSet, h1, h2]

/-- Witness for C10: a client-supplied `uuid` property is overwritten by
the server-generated identifier. -/
theorem create_server_assigned_fields_witness :
    mkVigilData (objSet emptyObj "uuid" (.str "client-uuid")) "vigil-1" 5
        "uuid" = some (.str "vigil-1")
    ∧ (objSet emptyObj "uuid" (.str "client-uuid")) "uuid"
        = some (.str "client-uuid") := by
  have h := create_server_assigned_fields ⟨[], ⟨none, 0⟩⟩
    (objSet emptyObj "uuid" (.str "client-uuid")) "vigil-1" 5
    (fun _ => true)
  exact ⟨h.1, rfl⟩

/-- The successful pushes recorded by `syncVigilsToBDO` are exactly the
servers the outcome function accepts. -/
theorem sync_filter_successes (pushOk : String → Bool) :
    (syncVigilsToBDO pushOk).filter (fun r => r.success) =
      (BDO_SERVERS.filter pushOk).map
        (fun s => (⟨s, pushOk s⟩ : SyncOutcome)) := by
  unfold syncVigilsToBDO
  rw [List.filter_map]
  rfl

/-- Claim C2: a create or admin-delete snapshot push is reported
successful exactly when at least one endpoint accepts it; `syncedTo`
then lists exactly the succeeding endpoints, and the 500 sync-failure
response occurs exactly when zero endpoints succeed. -/
theorem sync_reporting (pushOk : String → Bool) (uuid : String)
    (total remaining : Nat) :
    (finishCreate uuid total (syncVigilsToBDO pushOk)
        = .syncFailed (syncVigilsToBDO pushOk)
      ↔ ∀ s ∈ BDO_SERVERS, pushOk s = false)
    ∧ ((∃ s ∈ BDO_SERVERS, pushOk s = true) →
        finishCreate uuid total (syncVigilsToBDO pushOk)
          = .synced uuid (BDO_SERVERS.filter pushOk) total)
    ∧ (finishDelete uuid remaining (syncVigilsToBDO pushOk)
        = .syncFailed (syncVigilsToBDO pushOk)
      ↔ ∀ s ∈ BDO_SERVERS, pushOk s = false)
    ∧ ((∃ s ∈ BDO_SERVERS, pushOk s = true) →
        finishDelete uuid remaining (syncVigilsToBDO pushOk)
          = .deleted uuid (BDO_SERVERS.filter pushOk) remaining) := by
  have hlen : ((syncVigilsToBDO pushOk).filter (fun r => r.success)).length
      = (BDO_SERVERS.filter pushOk).length := by
    rw [sync_filter_successes, List.length_map]
  have hnil : (BDO_SERVERS.filter pushOk).length = 0
      ↔ ∀ s ∈ BDO_SERVERS, pushOk s = false := by
    rw [List.length_eq_zero, List.filter_eq_nil_iff]
    simp
  have hmap : ((syncVigilsToBDO pushOk).filter
        (fun r => r.success)).map (fun r => r.server)
      = BDO_SERVERS.filter pushOk := by
    rw [sync_filter_successes, List.map_map]
    exact List.map_id _
  refine ⟨?_, ?_, ?_, ?_⟩
  · unfold finishCreate
    constructor
    · intro h
      by_cases hc : ((syncVigilsToBDO pushOk).filter
          (fun r => r.success)).length = 0
      · exact hnil.mp (hlen ▸ hc)
      · rw [if_neg hc] at h
        exact absurd h (by simp)
    · intro h
      rw [if_pos (by rw [hlen]; exact hnil.mpr h)]
  · intro ⟨s, hs, hok⟩
    unfold finishCreate
    rw [if_neg, hmap]
    rw [hlen]
    intro hc
    have := hnil.mp hc s hs
    simp [hok] at this
  · unfold finishDelete
    constructor
    · intro h
      by_cases hc : ((syncVigilsToBDO pushOk).filter
          (fun r => r.success)).length = 0
      · exact hnil.mp (hlen ▸ hc)
      · rw [if_neg hc] at h
        exact absurd h (by simp)
    · intro h
      rw [if_pos (by rw [hlen]; exact hnil.mpr h)]
  · intro ⟨s, hs, hok⟩
    unfold finishDelete
    rw [if_neg, hmap]
    rw [hlen]
    intro hc
    have := hnil.mp hc s hs
    simp [hok] at this

/-- Witness for C2, the scenario of the specification: with the first
endpoint failing and the other two succeeding, the create push is
reported successful and `syncedTo` holds exactly the two succeeding
endpoint URLs. -/
theorem sync_reporting_witness :
    finishCreate "vigil-1" 1
        (syncVigilsToBDO (fun s => s ≠ "https://dev.bdo.allyabase.com"))
      = .synced "vigil-1"
          ["https://ent.bdo.allyabase.com", "https://ind.bdo.allyabase.com"]
          1 := by
  have h := (sync_reporting
    (fun s => decide (s ≠ "https://dev.bdo.allyabase.com")) "vigil-1" 1
    1).2.1 ⟨"https://ent.bdo.allyabase.com", by decide⟩
  rw [h]
  rfl

/-- When the gate passes both parameter and expiry and signature checks,
`adminGate` yields `none`.  Helper shared by the admin-route theorems. -/
theorem adminGate_expired_of_parse (timestamp signature : String)
    (now t : Int) (sigValid : String → String → Bool)
    (hts : timestamp ≠ "") (hsig : signature ≠ "")
    (hparse : parseIntJS timestamp = some t)
    (hexp : 120000 < ((now - t).natAbs : Int)) :
    adminGate timestamp signature now sigValid = some .expired := by
  unfold adminGate
  dsimp only
  rw [if_neg (by simp [hts, hsig]), hparse]
  rw [if_pos (show jsGt (jsAbsSub now (some t)) 120000 = true by
    simp only [jsAbsSub, Option.map_some', jsGt, decide_eq_true_eq]
    exact hexp)]

/-- Claim C6: with both parameters present and a parseable timestamp
outside the 120000 ms window, both admin routes answer 401 expiry, for
every signature-validity outcome (the expiry check runs before
signature verification), and the store is left untouched. -/
theorem admin_expiry_regardless_of_signature (st : VigilsState)
    (uuid timestamp signature : String) (now t : Int)
    (sigValid : String → String → Bool) (pushOk : String → Bool)
    (hts : timestamp ≠ "") (hsig : signature ≠ "")
    (hparse : parseIntJS timestamp = some t)
    (hexp : 120000 < ((now - t).natAbs : Int)) :
    adminPageHandler st timestamp signature now sigValid
      = .gateFail .expired
    ∧ adminDeleteHandler st uuid timestamp signature now sigValid pushOk
      = (st, .gateFail .expired) := by
  have hgate := adminGate_expired_of_parse timestamp signature now t
    sigValid hts hsig hparse hexp
  constructor
  · unfold adminPageHandler
    rw [hgate]
  · unfold adminDeleteHandler
    rw [hgate]

/-- Witness for C6: a timestamp 121 seconds old is rejected as expired
even though the signature validates. -/
theorem admin_expiry_regardless_of_signature_witness :
    parseIntJS "0" = some 0
    ∧ 120000 < (((121000 : Int) - 0).natAbs : Int)
    ∧ adminPageHandler ⟨[], ⟨none, 0⟩⟩ "0" "sig" 121000 (fun _ _ => true)
        = .gateFail .expired := by
  refine ⟨by decide, by decide, ?_⟩
  exact (admin_expiry_regardless_of_signature ⟨[], ⟨none, 0⟩⟩ "u" "0" "sig"
    121000 0 (fun _ _ => true) (fun _ => true) (by decide) (by decide)
    (by decide) (by decide)).1

/-- Claim C9: when the timestamp parameter is present but `parseInt`
yields NaN, the expiry branch is never taken (the NaN comparison is
false) and the request proceeds directly to signature verification, on
both admin routes. -/
theorem admin_nan_timestamp_skips_expiry (st : VigilsState)
    (uuid timestamp signature : String) (now : Int)
    (sigValid : String → String → Bool) (pushOk : String → Bool)
    (hts : timestamp ≠ "") (hsig : signature ≠ "")
    (hparse : parseIntJS timestamp = none) :
    adminGate timestamp signature now sigValid
      = (if sigValid signature timestamp then none else some .invalidSig)
    ∧ adminPageHandler st timestamp signature now sigValid
        ≠ .gateFail .expired
    ∧ (adminDeleteHandler st uuid timestamp signature now sigValid
        pushOk).2 ≠ .gateFail .expired := by
  have hgate : adminGate timestamp signature now sigValid
      = (if sigValid signature timestamp then none
         else some .invalidSig) := by
    unfold adminGate
    dsimp only
    rw [if_neg (by simp [hts, hsig]), hparse]
    rw [if_neg (by simp [jsAbsSub, jsGt])]
    by_cases hv : sigValid signature timestamp
    · simp [hv]
    · simp [hv]
  refine ⟨hgate, ?_, ?_⟩
  · unfold adminPageHandler
    rw [hgate]
    by_cases hv : sigValid signature timestamp
    · simp [hv]
    · simp [hv]
  · unfold adminDeleteHandler
    rw [hgate]
    by_cases hv : sigValid signature timestamp
    · simp only [hv, if_true]
      cases objLookup st.vigils uuid <;> simp
    · simp [hv]

/-- Witness for C9: a non-numeric timestamp such as `abc` is never
rejected as expired; with a valid signature the moderation page is
served. -/
theorem admin_nan_timestamp_skips_expiry_witness :
    parseIntJS "abc" = none
    ∧ adminGate "abc" "sig" 999999999 (fun _ _ => true) = none := by
  refine ⟨by decide, ?_⟩
  have h := (admin_nan_timestamp_skips_expiry ⟨[], ⟨none, 0⟩⟩ "u" "abc"
    "sig" 999999999 (fun _ _ => true) (fun _ => true) (by decide)
    (by decide) (by decide)).1
  simpa using h

/-- With every endpoint failing, the filtered success list is empty.
Helper for C8. -/
theorem sync_all_fail (pushOk : String → Bool)
    (h : ∀ s ∈ BDO_SERVERS, pushOk s = false) :
    (syncVigilsToBDO pushOk).filter (fun r => r.success) = [] := by
  rw [sync_filter_successes]
  have : BDO_SERVERS.filter pushOk = [] :=
    List.filter_eq_nil_iff.mpr (by simpa using h)
  rw [this]
  rfl

/-- When the gate passes all three checks, `adminGate` yields `none`.
Helper for C8. -/
theorem adminGate_pass (timestamp signature : String) (now t : Int)
    (sigValid : String → String → Bool)
    (hts : timestamp ≠ "") (hsig : signature ≠ "")
    (hparse : parseIntJS timestamp = some t)
    (hexp : ((now - t).natAbs : Int) ≤ 120000)
    (hsv : sigValid signature timestamp = true) :
    adminGate timestamp signature now sigValid = none := by
  unfold adminGate
  dsimp only
  rw [if_neg (by simp [hts, hsig]), hparse]
  rw [if_neg (show ¬ jsGt (jsAbsSub now (some t)) 120000 = true by
    simp only [jsAbsSub, Option.map_some', jsGt, decide_eq_true_eq]
    omega)]
  simp [hsv]

/-- Claim C8: the local store is mutated before the replication push and
is not rolled back when zero endpoints accept it: after a create that
answers the 500 sync-failure error the record is present in the
returned store, and after an admin delete that answers the 500
sync-failure error the record is absent from it. -/
theorem mutation_survives_total_sync_failure (st : VigilsState)
    (data : JsObj) (vigilUUID : String) (now t : Int)
    (uuid timestamp signature : String)
    (sigValid : String → String → Bool) (pushOk : String → Bool)
    (hfail : ∀ s ∈ BDO_SERVERS, pushOk s = false)
    (hts : timestamp ≠ "") (hsig : signature ≠ "")
    (hparse : parseIntJS timestamp = some t)
    (hexp : ((now - t).natAbs : Int) ≤ 120000)
    (hsv : sigValid signature timestamp = true)
    (hpresent : objLookup st.vigils uuid ≠ none) :
    ((createHandler st data vigilUUID now pushOk).2
        = .syncFailed (syncVigilsToBDO pushOk)
      ∧ objLookup (createHandler st data vigilUUID now pushOk).1.vigils
          vigilUUID = some (mkVigilData data vigilUUID now))
    ∧ ((adminDeleteHandler st uuid timestamp signature now sigValid
          pushOk).2 = .finish (.syncFailed (syncVigilsToBDO pushOk))
      ∧ objLookup (adminDeleteHandler st uuid timestamp signature now
          sigValid pushOk).1.vigils uuid = none) := by
  have hgate := adminGate_pass timestamp signature now t sigValid hts
    hsig hparse hexp hsv
  have hempty := sync_all_fail pushOk hfail
  obtain ⟨v, hv⟩ : ∃ v, objLookup st.vigils uuid = some v := by
    cases h : objLookup st.vigils uuid with
    | none => exact absurd h hpresent
    | some v => exact ⟨v, rfl⟩
  refine ⟨⟨?_, ?_⟩, ?_⟩
  · unfold createHandler finishCreate
    dsimp only
    rw [hempty]
    rfl
  · unfold createHandler
    exact objLookup_objInsert st.vigils vigilUUID _
  · unfold adminDeleteHandler
    rw [hgate, hv]
    unfold finishDelete
    dsimp only
    rw [hempty]
    exact ⟨rfl, objLookup_objDelete_same st.vigils uuid⟩

/-- Witness for C8: with all three endpoints failing, a create reports
the 500 sync failure yet the created record is in the store, and an
admin delete reports the 500 sync failure yet the record is gone. -/
theorem mutation_survives_total_sync_failure_witness :
    ((createHandler ⟨[("u1", emptyObj)], ⟨none, 1⟩⟩ emptyObj "u2" 5
        (fun _ => false)).2
      = .syncFailed (syncVigilsToBDO (fun _ => false))
    ∧ objLookup (createHandler ⟨[("u1", emptyObj)], ⟨none, 1⟩⟩ emptyObj
        "u2" 5 (fun _ => false)).1.vigils "u2"
      = some (mkVigilData emptyObj "u2" 5))
    ∧ ((adminDeleteHandler ⟨[("u1", emptyObj)], ⟨none, 1⟩⟩ "u1" "5" "sig"
        5 (fun _ _ => true) (fun _ => false)).2
      = .finish (.syncFailed (syncVigilsToBDO (fun _ => false)))
    ∧ objLookup (adminDeleteHandler ⟨[("u1", emptyObj)], ⟨none, 1⟩⟩ "u1"
        "5" "sig" 5 (fun _ _ => true) (fun _ => false)).1.vigils "u1"
      = none) := by
  have h := mutation_survives_total_sync_failure
    ⟨[("u1", emptyObj)], ⟨none, 1⟩⟩ emptyObj "u2" 5 5 "u1" "5" "sig"
    (fun _ _ => true) (fun _ => false) (by decide) (by decide)
    (by decide) (by decide) (by decide) (by decide)
    (by intro h; rw [show objLookup [("u1", (emptyObj : JsObj))] "u1"
      = some emptyObj from rfl] at h; exact Option.some_ne_none _ h)
  exact h

/-- Counterexample to C3 as stated: a create request whose data carries
the zipcode `abc`, which fails the 5-digit pattern, is nevertheless
accepted into the store (the create endpoint never runs the pattern
test; only the browser client and the zipcode-info proxy do). -/
theorem create_accepts_invalid_zipcode :
    isValidZipcode "abc" = false
    ∧ objLookup (createHandler ⟨[], ⟨none, 0⟩⟩
        (objSet emptyObj "zipcode" (.str "abc")) "vigil-1" 5
        (fun _ => true)).1.vigils "vigil-1" ≠ none := by
  refine ⟨by decide, ?_⟩
  unfold createHandler
  intro h
  rw [objLookup_objInsert] at h
  exact Option.some_ne_none _ h

/-- Claim C3 amended: the create endpoint applies no zipcode validation;
the record of every create request enters the store unconditionally,
whatever its zipcode property holds (or whether it holds one at all). -/
theorem create_accepts_every_record (st : VigilsState) (data : JsObj)
    (vigilUUID : String) (now : Int) (pushOk : String → Bool) :
    objLookup (createHandler st data vigilUUID now pushOk).1.vigils
      vigilUUID = some (mkVigilData data vigilUUID now) := by
  unfold createHandler
  exact objLookup_objInsert st.vigils vigilUUID _

/-- Counterexample to C5 as stated: a credential file that exists but
carries no stored remote identifier (the state left behind when key
generation saved the keys but no `createUser` call had succeeded yet)
does not suppress identity creation — `createUser` is invoked on every
endpoint. -/
theorem bootstrap_creates_despite_existing_file :
    (initializeBDO (some ⟨"pub", "priv", none⟩)
      (fun _ => some "fresh-uuid")).createCalls = BDO_SERVERS
    ∧ (initializeBDO (some ⟨"pub", "priv", none⟩)
      (fun _ => some "fresh-uuid")).createCalls ≠ [] := by
  refine ⟨by decide, by decide⟩

/-- Claim C5 amended: if the credential file exists at startup and
carries a stored (non-empty) remote identifier, bootstrap invokes
`createUser` on no endpoint, adopts that identifier as `bdoUserUUID`,
reports every endpoint as an existing success, and every subsequent
replication push targets that identifier. -/
theorem bootstrap_reuses_stored_identity (file : Option StoredKeys)
    (ks : StoredKeys) (u : String)
    (createOutcome : String → Option String)
    (hf : file = some ks) (hu : ks.uuid = some u) (hne : u ≠ "") :
    (initializeBDO file createOutcome).createCalls = []
    ∧ (initializeBDO file createOutcome).bdoUserUUID = some u
    ∧ (initializeBDO file createOutcome).results
        = BDO_SERVERS.map (fun s => ⟨s, some u, true, true⟩)
    ∧ ∀ p ∈ syncCallTargets
        (initializeBDO file createOutcome).bdoUserUUID, p.2 = some u := by
  subst hf
  unfold initializeBDO
  dsimp only
  rw [hu]
  dsimp only
  rw [if_neg hne]
  refine ⟨rfl, rfl, rfl, ?_⟩
  intro p hp
  simp only [syncCallTargets, List.mem_map] at hp
  obtain ⟨s, _, rfl⟩ := hp
  rfl

/-- Witness for C5 amended: a file holding the identifier `uuid-1` makes
bootstrap adopt `uuid-1` with no creation calls. -/
theorem bootstrap_reuses_stored_identity_witness :
    (initializeBDO (some ⟨"pub", "priv", some "uuid-1"⟩)
      (fun _ => some "other")).createCalls = []
    ∧ (initializeBDO (some ⟨"pub", "priv", some "uuid-1"⟩)
      (fun _ => some "other")).bdoUserUUID = some "uuid-1" := by
  have h := bootstrap_reuses_stored_identity
    (some ⟨"pub", "priv", some "uuid-1"⟩)
    ⟨"pub", "priv", some "uuid-1"⟩ "uuid-1" (fun _ => some "other")
    rfl rfl (by decide)
  exact ⟨h.1, h.2.1⟩

/-- Counterexample to C4 as stated: `countToday` filters by the date
part of `toISOString`, which is the UTC calendar date; at
2025-01-01T01:00Z in a UTC-8 process the local calendar date is still
2024-12-31, so the vigil dated today (locally) is not counted. -/
theorem countToday_not_local :
    toISODateString 1735693200000 = "2025-01-01"
    ∧ localDateString 1735693200000 480 = "2024-12-31"
    ∧ vigilsCountToday cxDateStore 1735693200000 = 0
    ∧ localCountToday cxDateStore 1735693200000 480 = 1
    ∧ vigilsCountToday cxDateStore 1735693200000
        ≠ localCountToday cxDateStore 1735693200000 480 := by
  refine ⟨by decide, by decide, by decide, by decide, by decide⟩

/-- Claim C4 amended: `countToday` equals the number of stored records
whose date field equals the current UTC calendar date (the date part of
`toISOString`); it is 0 for an empty store, and it equals the count by
local calendar date exactly at instants where the local and UTC
calendar dates coincide (in particular always when the timezone offset
is zero). -/
theorem countToday_utc (st : VigilsState) (ms : Int) :
    (st.vigils = [] → vigilsCountToday st ms = 0)
    ∧ vigilsCountToday st ms
        = ((objValues st.vigils).filter
            (fun v => v "date" = some (.str (toISODateString ms)))).length
    ∧ (∀ tz : Int, localDateString ms tz = toISODateString ms →
        vigilsCountToday st ms = localCountToday st ms tz)
    ∧ localDateString ms 0 = toISODateString ms := by
  refine ⟨?_, rfl, ?_, ?_⟩
  · intro h
    simp [vigilsCountToday, h, objValues]
  · intro tz h
    unfold localCountToday vigilsCountToday
    rw [h]
  · unfold localDateString
    norm_num

/-- Witness for C4 amended: on an empty store the count is 0, and at
the epoch instant with zero offset the UTC and local counts agree. -/
theorem countToday_utc_witness :
    vigilsCountToday ⟨[], ⟨none, 0⟩⟩ 0 = 0
    ∧ localDateString 0 0 = toISODateString 0
    ∧ vigilsCountToday cxDateStore 0 = localCountToday cxDateStore 0 0 := by
  have h0 := countToday_utc ⟨[], ⟨none, 0⟩⟩ 0
  have h1 := countToday_utc cxDateStore 0
  exact ⟨h0.1 rfl, h1.2.2.2, h1.2.2.1 0 h1.2.2.2⟩

/-- Stability of the search sort: among results sharing one rounded
distance, the order of the filtered enumeration is preserved. -/
theorem insertionSort_filter_key {V : Type} (l : List (V × ℚ)) (q : ℚ) :
    (l.insertionSort (fun a b => a.2 ≤ b.2)).filter (fun p => p.2 = q)
      = l.filter (fun p => p.2 = q) := by
  have hpw : (l.filter (fun p => p.2 = q)).Pairwise
      (fun a b : V × ℚ => a.2 ≤ b.2) := by
    apply List.pairwise_of_forall_mem_list
    intro a ha b hb
    have ha' := List.of_mem_filter ha
    have hb' := List.of_mem_filter hb
    simp only [decide_eq_true_eq] at ha' hb'
    rw [ha', hb']
  have hsub : List.Sublist (l.filter (fun p => p.2 = q))
      (l.insertionSort (fun a b => a.2 ≤ b.2)) :=
    List.sublist_insertionSort hpw (List.filter_sublist l)
  have hself : (l.filter (fun p => p.2 = q)).filter (fun p => p.2 = q)
      = l.filter (fun p => p.2 = q) := by
    apply List.filter_eq_self.mpr
    intro a ha
    have h2 := List.of_mem_filter ha
    exact h2
  have hsub2 : List.Sublist (l.filter (fun p => p.2 = q))
      ((l.insertionSort (fun a b => a.2 ≤ b.2)).filter
        (fun p => p.2 = q)) := by
    have h := hsub.filter (fun p => decide (p.2 = q))
    rwa [hself] at h
  have hperm : List.Perm ((l.insertionSort
        (fun a b => a.2 ≤ b.2)).filter (fun p => p.2 = q))
      (l.filter (fun p => p.2 = q)) :=
    (List.perm_insertionSort _ l).filter _
  exact (hsub2.eq_of_length hperm.length_eq.symm).symm

/-- Claim C1 amended: the radius search output is sorted ascending by
the rounded distance each record is paired with (not by the unrounded
distance from the search point), it is a permutation of the filtered
enumeration with ties in rounded distance kept in enumeration order
(stable sort), and each record is paired with its true distance rounded
to one decimal place, the true distance being within the radius. -/
theorem radiusSearch_sorted_by_rounded {V : Type}
    (resolveV : V → Option Coordinate)
    (dist : Coordinate → Coordinate → ℚ) (searchCoords : Coordinate)
    (vigils : List V) :
    (radiusSearch resolveV dist searchCoords vigils).Pairwise
      (fun a b => a.2 ≤ b.2)
    ∧ List.Perm (radiusSearch resolveV dist searchCoords vigils)
        (vigilsWithDistance resolveV dist searchCoords vigils)
    ∧ (∀ q : ℚ,
        (radiusSearch resolveV dist searchCoords vigils).filter
            (fun p => p.2 = q)
          = (vigilsWithDistance resolveV dist searchCoords vigils).filter
            (fun p => p.2 = q))
    ∧ ∀ p ∈ radiusSearch resolveV dist searchCoords vigils,
        ∃ c, resolveV p.1 = some c
          ∧ dist searchCoords c ≤ RADIUS_MILES
          ∧ p.2 = round1 (dist searchCoords c) := by
  refine ⟨?_, ?_, ?_, ?_⟩
  · exact List.sorted_insertionSort _ _
  · exact List.perm_insertionSort _ _
  · intro q
    exact insertionSort_filter_key _ q
  · intro p hp
    have hmem : p ∈ vigilsWithDistance resolveV dist searchCoords
        vigils := (List.perm_insertionSort _ _).subset hp
    unfold vigilsWithDistance at hmem
    rw [List.mem_filterMap] at hmem
    obtain ⟨v, _, hv⟩ := hmem
    cases hres : resolveV v with
    | none => rw [hres] at hv; exact absurd hv (by simp)
    | some c =>
      rw [hres] at hv
      dsimp only at hv
      by_cases hd : dist searchCoords c ≤ RADIUS_MILES
      · rw [if_pos hd] at hv
        cases hv
        exact ⟨c, hres, hd, rfl⟩
      · rw [if_neg hd] at hv
        exact absurd hv (by simp)

/-- Counterexample to C1 as stated.  Two records at true distances 1.24
and 1.16 miles, stored in that enumeration order: both distances round
to 1.2, so the stable sort by the rounded value keeps the farther
record first, and the output is not ascending in the distance from the
search point. -/
theorem radiusSearch_not_sorted_by_true_distance :
    ¬ sortedByTrueDistance cxResolve cxDist cxSearchCoord
      (radiusSearch cxResolve cxDist cxSearchCoord cxVigils) := by
  have h1 : round1 (31 / 25) = 6 / 5 := by
    unfold round1
    norm_num [round_eq]
  have h2 : round1 (29 / 25) = 6 / 5 := by
    unfold round1
    norm_num [round_eq]
  have hne : ¬ ("22222" = "11111") := by decide
  have hw : vigilsWithDistance cxResolve cxDist cxSearchCoord cxVigils
      = [(⟨"v1", "11111"⟩, 6 / 5), (⟨"v2", "22222"⟩, 6 / 5)] := by
    unfold vigilsWithDistance cxVigils cxResolve cxDist
    simp only [List.filterMap]
    norm_num [cxCoord1, cxCoord2, RADIUS_MILES, h1, h2, hne]
  have hout : radiusSearch cxResolve cxDist cxSearchCoord cxVigils
      = [(⟨"v1", "11111"⟩, 6 / 5), (⟨"v2", "22222"⟩, 6 / 5)] := by
    unfold radiusSearch
    rw [hw]
    simp only [List.insertionSort, List.orderedInsert]
    norm_num
  intro h
  unfold sortedByTrueDistance at h
  rw [hout] at h
  have h12 := (List.pairwise_cons.mp h).1
    ((⟨"v2", "22222"⟩, 6 / 5) : VigilRec × ℚ) (by simp)
  unfold trueDistOf cxResolve cxDist at h12
  norm_num [cxCoord1, cxCoord2, hne] at h12

/-- Witness for C1 amended, at the counterexample inputs: the output is
sorted ascending in the paired rounded distance. -/
theorem radiusSearch_sorted_by_rounded_witness :
    (radiusSearch cxResolve cxDist cxSearchCoord cxVigils).Pairwise
      (fun a b => a.2 ≤ b.2) :=
  (radiusSearch_sorted_by_rounded cxResolve cxDist cxSearchCoord
    cxVigils).1

end VigilsForGood
